import Mathlib

/-!
Verification of the evaluation-orchestration subsystem of the avi-backend
repository: the question-progress state machine (`/question` route), the
tiered domain-evaluation fallback chain (`/evaluate_domain` route,
`domain_evaluator.py`, `llm_client.py`), the score-fusion engine
(`feedback_generator.py`) and the posture summary (`posture_tracker.py`).

Python dynamic values (JSON payloads, dict lookups, truthiness, `float(...)`
coercion) are modelled by the `Json` type and the `py*` helpers below.
Effectful calls (HTTP, `json.loads`, sklearn) are passed in as explicit
oracle arguments: `loads : String → Option Json` stands for `json.loads`
(`none` = the call raises), `chatData : Option Json` stands for the parsed
HTTP response body (`none` = transport/HTTP/JSON failure), and a cosine
similarity produced by sklearn is a `ℚ` argument.  A function that can raise
an exception to its caller returns an `Option`; `none` is the raise.
-/

/-- Model of a Python/JSON value as it flows through the backend. -/
inductive Json where
  | null
  | bool (b : Bool)
  | num (q : ℚ)
  | str (s : String)
  | arr (xs : List Json)
  | obj (kvs : List (String × Json))

/-- Dict lookup: `d[k]` / `d.get(k)` on the association list of an object.
Object literals in this file have distinct keys, so first-match is accurate. -/
def jlookup (kvs : List (String × Json)) (k : String) : Option Json :=
  (kvs.find? (fun p => p.1 == k)).map (·.2)

/-- Python truthiness of a JSON-shaped value (`bool(x)`). -/
def pyTruthy : Json → Bool
  | .null => false
  | .bool b => b
  | .num q => q != 0
  | .str s => s != ""
  | .arr xs => !xs.isEmpty
  | .obj kvs => !kvs.isEmpty

/-- Value of a nonempty all-digit character list, `none` otherwise. -/
def natOfDigits? : List Char → Option Nat
  | [] => none
  | cs =>
    if cs.all Char.isDigit then
      some (cs.foldl (fun a c => a * 10 + (c.toNat - 48)) 0)
    else none

/-- ASCII whitespace test used by the `strip` model. -/
def isSpaceChar (c : Char) : Bool :=
  c == ' ' || c == '\t' || c == '\n' || c == '\r'

/-- Model of Python `s.strip()` on ASCII whitespace. -/
def pyStrip (s : String) : String :=
  String.mk (((s.toList.dropWhile isSpaceChar).reverse.dropWhile isSpaceChar).reverse)

/-- Model of Python `float(s)` on a string: optional sign, digits, optional
fraction.  Exponents, `inf`/`nan` are not modelled; no claim depends on them. -/
def strToRat? (s : String) : Option ℚ :=
  let cs := (pyStrip s).toList
  let sgn : ℚ × List Char :=
    match cs with
    | '-' :: r => (-1, r)
    | '+' :: r => (1, r)
    | r => (1, r)
  let body := sgn.2
  match body.span (· ≠ '.') with
  | (intPart, []) => (natOfDigits? intPart).map (fun n => sgn.1 * n)
  | (intPart, _dot :: frac) =>
    match intPart, frac with
    | [], [] => none
    | [], f => (natOfDigits? f).map (fun m => sgn.1 * ((m : ℚ) / 10 ^ f.length))
    | i, [] => (natOfDigits? i).map (fun n => sgn.1 * n)
    | i, f =>
      match natOfDigits? i, natOfDigits? f with
      | some n, some m => some (sgn.1 * ((n : ℚ) + (m : ℚ) / 10 ^ f.length))
      | _, _ => none

/-- Model of Python `float(x)` on a JSON-shaped value; `none` = raises. -/
def pyFloat : Json → Option ℚ
  | .num q => some q
  | .bool b => some (if b then 1 else 0)
  | .str s => strToRat? s
  | _ => none

/-- The character `{`, written via its code point. -/
def lbrace : Char := Char.ofNat 123

/-- The character `}`, written via its code point. -/
def rbrace : Char := Char.ofNat 125

/-- Model of Python `s.find(c)` / `s.index(c)`: index of first occurrence. -/
def charFindIdx? (cs : List Char) (c : Char) : Option Nat :=
  cs.findIdx? (· == c)

/-- Model of Python `s.rfind(c)` / `s.rindex(c)`: index of last occurrence. -/
def charRfindIdx? (cs : List Char) (c : Char) : Option Nat :=
  (cs.reverse.findIdx? (· == c)).map (fun i => cs.length - 1 - i)

/-- Model of the Python slice `s[a:b]` (clamping, empty when `b ≤ a`). -/
def pySlice (cs : List Char) (a b : Nat) : String :=
  String.mk ((cs.drop a).take (b - a))

/-- Lower-case a string character-wise (Python `.lower()` for ASCII labels). -/
def lowerStr (s : String) : String :=
  String.mk (s.toList.map Char.toLower)

namespace LlmClient

/-!
Model of `src/utils/llm_client.py`.  `json.loads` is an oracle
`loads : String → Option Json`; the parsed HTTP response body of the Groq
call is an oracle `data : Option Json` (`none` = the request or
`response.json()` raised); `errMsg` stands for `str(e)` of the caught
exception.
-/

/-- Extraction `data["choices"][0]["message"]["content"]` from the Groq
response; `none` = a KeyError/IndexError/TypeError is raised. -/
def groqExtract : Json → Option Json
  | .obj kvs =>
    match jlookup kvs "choices" with
    | some (.arr (first :: _)) =>
      (match first with
       | .obj fkvs =>
         match jlookup fkvs "message" with
         | some (.obj mkvs) => jlookup mkvs "content"
         | _ => none
       | _ => none)
    | _ => none
  | _ => none

/-- Model of `llm_client.rapidapi_chat_json` (lines 18-41): returns the
extracted content on success and the string `"ERROR: " + str(e)` when the
request, the JSON decode of the response, or the field extraction raises.
Total: it never raises to its caller. -/
def rapidapi_chat_json (data : Option Json) (errMsg : String) : Json :=
  match data.bind groqExtract with
  | some content => content
  | none => .str ("ERROR: " ++ errMsg)

/-- Model of `llm_client.rapidapi_try_parse_json` (lines 44-65): non-string
input yields the empty dict; else try `json.loads` directly, then on the
substring from the first `{` through the last `}`; any failure yields the
empty dict.  Total: it never raises to its caller. -/
def rapidapi_try_parse_json (loads : String → Option Json) (text : Json) : Json :=
  match text with
  | .str s =>
    (match loads s with
     | some j => j
     | none =>
       let cs := s.toList
       match charFindIdx? cs lbrace, charRfindIdx? cs rbrace with
       | some st, some en =>
         (loads (pySlice cs st (en + 1))).getD (.obj [])
       | _, _ => .obj [])
  | _ => .obj []

end LlmClient

namespace DomainEvaluator

/-- Feedback of the no-response early return in `evaluate_domain_response`. -/
def noResponseFeedback : String :=
  "No response was detected. Try explaining your thoughts next time, even if you" ++
    String.singleton (Char.ofNat 39) ++
    "re unsure — 2–3 sentences are enough."

/-- Feedback of the except branch of `evaluate_domain_response` (never taken:
both callees of its try block are total). -/
def safeFallbackFeedback : String :=
  "Decent attempt! Try adding more structure and covering the key points more clearly. Short examples also help improve clarity."

/-- Default feedback when the parsed judge output has no `feedback` key. -/
def parsedFeedbackDefault : String :=
  "Good attempt! Try to cover the main definition and add 1–2 brief examples."

/-- An evaluation outcome `{"similarity_score": ..., "feedback": ...}`. -/
structure DomainEval where
  similarity_score : ℚ
  feedback : Json

/-- Model of `domain_evaluator.evaluate_domain_response`.  The chat text and
JSON parse go through the total `LlmClient` functions, so the except branch
at lines 74-82 of the source is dead and has no corresponding path here.
`none` = the function raises (an AttributeError from `parsed.get` when the
parsed value is not a dict, at line 87, outside the try block). -/
def evaluate_domain_response (loads : String → Option Json)
    (chatData : Option Json) (errMsg : String)
    (user_response _correct_answer : String) : Option DomainEval :=
  let user := pyStrip user_response
  if user = "" then
    some ⟨0, .str noResponseFeedback⟩
  else
    let model_text := LlmClient.rapidapi_chat_json chatData errMsg
    let parsed := LlmClient.rapidapi_try_parse_json loads model_text
    match parsed with
    | .obj kvs =>
      let scoreJ := (jlookup kvs "similarity_score").getD
        ((jlookup kvs "score").getD .null)
      let score_f : ℚ :=
        match scoreJ with
        | .null => 50
        | v => (pyFloat v).getD 50
      let feedback := (jlookup kvs "feedback").getD (.str parsedFeedbackDefault)
      some ⟨max 0 (min 100 score_f), feedback⟩
    | _ => none

end DomainEvaluator

namespace App

/-!
Model of the route handlers defined inside `create_app` in `src/app.py`.
-/

/-- A normalized question as produced by `_load_questions`. -/
structure Question where
  id : String
  text : String
  ideal_answer : String

/-- The per-question result dict pushed by `generate_feedback_route`; its
field values are opaque JSON payloads. -/
structure PerQuestionResult where
  question_id : Json
  question_text : Json
  question_index : Json
  nlp_result : Json
  emotion_result : Json
  posture_result : Json
  tone_result : Json
  final_score : Json
  qualitative_rating : Json
  feedback : Json

/-- The session-store document for one `(email, interview_id, domain)` key.
A document inserted without a `current_question` field is read back as 0
(`doc.get("current_question", 0)`), so the field is total here. -/
structure SessionDoc where
  current_question : Nat
  results : List PerQuestionResult

/-- Observable outcome of one `GET /question` call. -/
inductive NextQOutcome where
  | invalidDomain
  | done (total : Nat)
  | question (index : Nat) (total : Nat) (id : String) (text : String)

/-- Model of `get_next_question` (app.py lines 202-259) for an existing
session document: serve the question at `current_question` and advance the
stored index by one; once the index reaches the question count, answer
`done` and leave the document untouched; an empty question set is rejected
before the store is read. -/
def get_next_question (qs : List Question) (doc : SessionDoc) :
    NextQOutcome × SessionDoc :=
  let total := qs.length
  if total = 0 then (.invalidDomain, doc)
  else
    let idx := doc.current_question
    if idx ≥ total then (.done total, doc)
    else
      match qs[idx]? with
      | some q => (.question (idx + 1) total q.id q.text,
          { doc with current_question := idx + 1 })
      | none => (.invalidDomain, doc)

/-- State after `n` sequential `GET /question` calls. -/
def runNextQ (qs : List Question) : Nat → SessionDoc → SessionDoc
  | 0, doc => doc
  | n + 1, doc => runNextQ qs n (get_next_question qs doc).2

/-- Observable outcome of the `k`-th call (0-based) in a run that starts
from a fresh document (`current_question = 0`, prior results `rs`). -/
def nthOutcome (qs : List Question) (rs : List PerQuestionResult) (k : Nat) :
    NextQOutcome :=
  (get_next_question qs (runNextQ qs k ⟨0, rs⟩)).1

/-- Model of the per-question persistence step of `generate_feedback_route`
(app.py lines 716-748): upsert the document with empty `results` if absent,
then `$push` the per-question result; `current_question` is never written. -/
def append_result (per_q : PerQuestionResult) (store : Option SessionDoc) :
    SessionDoc :=
  let doc := match store with
    | some d => d
    | none => ⟨0, []⟩
  { doc with results := doc.results ++ [per_q] }

/-- Which stage of the `/evaluate_domain` fallback chain produced the
outcome. -/
inductive Tier where
  | primary
  | lexical
  | remoteJudge
  | fallbackDefault

/-- Model of Python `round(x, 2)` over ℚ.  Mathlib's `round` resolves exact
half-cent ties upward where Python rounds them to even; no claim observes a
tie. -/
def round2 (q : ℚ) : ℚ :=
  (round (q * 100) : ℚ) / 100

/-- Feedback bands of the TF-IDF fallback (app.py lines 429-434). -/
def tfidf_feedback (score_pct : ℚ) : String :=
  if score_pct > 80 then "Excellent answer!"
  else if score_pct > 60 then "Good attempt!"
  else if score_pct > 40 then "Fair answer — try to include more key points."
  else "Weak match — revise the core concept and try again."

/-- Model of the TF-IDF fallback block (app.py lines 416-438) given the
cosine similarity `sim` computed by sklearn (the two-document fit always has
two rows, so the `vec.shape[0] < 2` branch is dead). -/
def tfidfStage (sim : ℚ) : DomainEvaluator.DomainEval :=
  let score_pct := round2 (sim * 100)
  ⟨score_pct, .str (tfidf_feedback score_pct)⟩

/-- Model of the route-local `rapidapi_try_parse_json` (app.py lines
166-181): try `json.loads` directly; on failure retry on the substring from
the first `{` through the last `}` when both exist in that order; `none` =
the function raises `ValueError` to its caller. -/
def rapidapi_try_parse_json (loads : String → Option Json)
    (model_text : String) : Option Json :=
  match loads model_text with
  | some j => some j
  | none =>
    let cs := model_text.toList
    match charFindIdx? cs lbrace, charRfindIdx? cs rbrace with
    | some st, some en =>
      if st < en then loads (pySlice cs st (en + 1))
      else none
    | _, _ => none

/-- Model of the RapidAPI judge fallback block (app.py lines 443-461):
`chat` is the text returned by the route-local `rapidapi_chat_json`
(`none` = it raised); the reply is parsed by the route-local
`rapidapi_try_parse_json`, and `float()` of the score field must succeed;
any raise in the block (`none` here) sends the route to the safe default. -/
def remoteJudgeStage (loads : String → Option Json) (chat : Option String) :
    Option DomainEvaluator.DomainEval :=
  match chat with
  | none => none
  | some model_text =>
    match rapidapi_try_parse_json loads model_text with
    | none => none
    | some parsed =>
      match parsed with
      | .obj kvs =>
        let scoreJ := (jlookup kvs "similarity_score").getD
          ((jlookup kvs "score").getD (.num 50))
        (match pyFloat scoreJ with
         | none => none
         | some sc =>
           some ⟨sc, (jlookup kvs "feedback").getD
             ((jlookup kvs "comment").getD (.str ""))⟩)
      | _ => none

/-- The last-resort outcome of `/evaluate_domain` (app.py lines 466-470). -/
def routeSafeDefault : DomainEvaluator.DomainEval :=
  ⟨50, .str ("We could not fully evaluate this answer due to a system issue, " ++
    "but you can still review your response and try again.")⟩

/-- Tail of the chain after the primary and lexical stages failed. -/
def domainChain3 (loads : String → Option Json) (chat : Option String) :
    DomainEvaluator.DomainEval × Tier :=
  match remoteJudgeStage loads chat with
  | some r => (r, .remoteJudge)
  | none => (routeSafeDefault, .fallbackDefault)

/-- Tail of the chain after the primary stage failed: the TF-IDF block runs
(`s2` = its cosine similarity, `none` = the block raised). -/
def domainChain2 (s2 : Option ℚ) (loads : String → Option Json)
    (chat : Option String) : DomainEvaluator.DomainEval × Tier :=
  match s2 with
  | some sim => (tfidfStage sim, .lexical)
  | none => domainChain3 loads chat

/-- Model of the fallback chain of `evaluate_domain_route` (app.py lines
405-471): `s1` is the outcome of the primary `evaluate_domain_response`
block (`none` = it raised), then the TF-IDF block, then the remote judge,
then the safe default. -/
def evaluate_domain_route (s1 : Option DomainEvaluator.DomainEval)
    (s2 : Option ℚ) (loads : String → Option Json) (chat : Option String) :
    DomainEvaluator.DomainEval × Tier :=
  match s1 with
  | some r => (r, .primary)
  | none => domainChain2 s2 loads chat

end App

namespace FeedbackGenerator

/-!
Model of `src/modules/feedback/feedback_generator.py`.  The pattern
`(d.get(k) or "").lower()` is modelled by `labelOf`: a truthy non-string
value there would raise `AttributeError` in Python; such shapes occur in no
claim and are mapped to the empty string.
-/

/-- The string taken from `(d.get(k) or "")` for the categorical labels. -/
def labelOf (v : Option Json) : String :=
  match v with
  | some (.str s) => s
  | _ => ""

/-- Model of `_norm_similarity` (lines 12-28). -/
def norm_similarity (nlp : Json) : ℚ :=
  match nlp with
  | .obj kvs =>
    (match (jlookup kvs "similarity_score").getD ((jlookup kvs "score").getD .null) with
     | .null => 1/2
     | v =>
       match pyFloat v with
       | none => 1/2
       | some s =>
         let s := if s > 3/2 then s / 100 else s
         max 0 (min 1 s))
  | _ => 1/2

/-- Model of `_emotion_score` (lines 31-42). -/
def emotion_score (emotion : Json) : ℚ :=
  match emotion with
  | .obj kvs =>
    if !pyTruthy ((jlookup kvs "success").getD (.bool true)) then 7/10
    else
      let dom := lowerStr (labelOf (jlookup kvs "dominant_emotion"))
      if dom == "hap" || dom == "happy" || dom == "joy" then 9/10
      else if dom == "neutral" || dom == "neu" then 8/10
      else if dom == "sad" || dom == "ang" || dom == "angry" || dom == "fear" then 6/10
      else 7/10
  | _ => 7/10

/-- Model of `_tone_score` (lines 45-56). -/
def tone_score (tone : Json) : ℚ :=
  match tone with
  | .obj kvs =>
    if !pyTruthy ((jlookup kvs "success").getD (.bool true)) then 7/10
    else
      let dom := lowerStr (labelOf (jlookup kvs "detected_emotion"))
      if dom == "hap" || dom == "happy" || dom == "excited" then 9/10
      else if dom == "neutral" || dom == "neu" || dom == "calm" then 8/10
      else if dom == "sad" || dom == "ang" || dom == "angry" || dom == "fear" then 6/10
      else 7/10
  | _ => 7/10

/-- Substring containment, modelling Python `needle in haystack`. -/
def strHas (haystack needle : String) : Bool :=
  let rec go (n : List Char) : List Char → Bool
    | [] => n.isEmpty
    | c :: rest => n.isPrefixOf (c :: rest) || go n rest
  go needle.toList haystack.toList

/-- Model of `_posture_score` (lines 59-70): `none` = the Python `None`
that marks the posture modality as absent. -/
def posture_score (posture : Json) : Option ℚ :=
  match posture with
  | .obj kvs =>
    if !pyTruthy ((jlookup kvs "success").getD (.bool true)) then none
    else
      let summary := lowerStr (labelOf (jlookup kvs "summary"))
      if strHas summary "excellent" then some (9/10)
      else if strHas summary "good" then some (8/10)
      else if strHas summary "poor" || strHas summary "bad" then some (6/10)
      else some (7/10)
  | _ => none

/-- The fused weights of `_merge_scores` (lines 79-94): base weights
`{nlp: 0.65, emotion: 0.15, tone: 0.10, posture: 0.10}`; when the posture
sub-score is `None` its weight is removed and redistributed across the
remaining three in proportion to their share of the remaining total, and the
set is renormalized by its sum; `weights.get("posture", 0)` reads 0 for the
removed key. -/
def merge_weights (postPresent : Bool) : ℚ × ℚ × ℚ × ℚ :=
  let wNlp : ℚ := 65/100
  let wEmo : ℚ := 15/100
  let wTone : ℚ := 10/100
  let wPost : ℚ := 10/100
  if postPresent then
    let total := wNlp + wEmo + wTone + wPost
    (wNlp / total, wEmo / total, wTone / total, wPost / total)
  else
    let removed := wPost
    let total := wNlp + wEmo + wTone
    let wNlp := wNlp + wNlp / total * removed
    let wEmo := wEmo + wEmo / total * removed
    let wTone := wTone + wTone / total * removed
    let total2 := wNlp + wEmo + wTone
    (wNlp / total2, wEmo / total2, wTone / total2, 0)

/-- The fusion step of `_merge_scores` (lines 96-103) on the already
extracted sub-scores: weighted sum, then clamp to `[0, 1]`; an absent
posture contributes `(post_s or 0) = 0` with weight 0. -/
def merge_scores_core (nlp_s emo_s tone_s : ℚ) (post_s : Option ℚ) : ℚ :=
  let w := merge_weights post_s.isSome
  let final := w.1 * nlp_s + w.2.1 * emo_s + w.2.2.1 * tone_s +
    w.2.2.2 * (post_s.getD 0)
  max 0 (min 1 final)

/-- Model of `_merge_scores` (lines 73-103). -/
def merge_scores (nlp emotion posture tone : Json) : ℚ :=
  merge_scores_core (norm_similarity nlp) (emotion_score emotion)
    (tone_score tone) (posture_score posture)

/-- Model of `_rating_from_score` (lines 106-113). -/
def rating_from_score (score : ℚ) : String :=
  if score ≥ 80/100 then "Excellent"
  else if score ≥ 65/100 then "Good"
  else if score ≥ 45/100 then "Average"
  else "Poor"

/-- The try block of `generate_feedback` after the parse (lines 148-154):
`parsed.get("feedback")` raises `AttributeError` when `parsed` is not a
dict, and a missing or falsy feedback raises `ValueError`; `none` = the
except branch at lines 156-163 runs. -/
def generate_feedback_try (parsed : Json) : Option Json :=
  match parsed with
  | .obj kvs =>
    (match jlookup kvs "feedback" with
     | some f => if pyTruthy f then some f else none
     | none => none)
  | _ => none

/-- Result dict of `generate_feedback` (echoed inputs omitted here are
returned unchanged by the source). -/
structure FeedbackResult where
  final_score : ℚ
  qualitative_rating : String
  feedback : Json

/-- Model of `generate_feedback` (lines 120-173): fuse the scores, ask the
LLM for feedback text, and on any failure of the try block substitute the
local fallback text (`fbErr` stands for `str(e)` of the caught exception). -/
def generate_feedback (loads : String → Option Json) (chatData : Option Json)
    (errMsg fbErr : String) (nlp emotion posture tone : Json) : FeedbackResult :=
  let final_score := merge_scores nlp emotion posture tone
  let rating := rating_from_score final_score
  let model_text := LlmClient.rapidapi_chat_json chatData errMsg
  let parsed := LlmClient.rapidapi_try_parse_json loads model_text
  let feedback_text : Json :=
    match generate_feedback_try parsed with
    | some f => f
    | none =>
      let percent := round (final_score * 100)
      .str ("Fallback feedback due to error: " ++ fbErr ++
        "\nYour approximate score is " ++ toString percent ++ "% (" ++ rating ++
        ").\n- Answer was short or unclear.\n- Try speaking longer.\n")
  ⟨final_score, rating, feedback_text⟩

end FeedbackGenerator

namespace PostureTracker

/-- The summary label computed on the success path of `analyze_posture`
(`posture_tracker.py` lines 88-101) from the detected-face presence share
of the sampled frames. -/
def posture_summary (presence : ℚ) : String :=
  if presence > 7/10 then "good"
  else if presence > 35/100 then "fair"
  else "poor"

end PostureTracker

/-- Whether a JSON value is an object (a Python dict). -/
def Json.isObjB : Json → Bool
  | .obj _ => true
  | _ => false

/-- Clamping to an interval is monotone. -/
theorem clamp_mono {lo hi a b : ℚ} (h : a ≤ b) :
    max lo (min hi a) ≤ max lo (min hi b) :=
  max_le_max le_rfl (min_le_min le_rfl h)

/-- Mathlib `round` is monotone. -/
theorem round_mono_q {a b : ℚ} (h : a ≤ b) : round a ≤ round b := by
  rw [round_eq, round_eq]
  exact Int.floor_le_floor (by linarith)

/-- The 2-decimal rounding of a value in `[0, 100]` stays in `[0, 100]`. -/
theorem round2_bounds {q : ℚ} (h0 : 0 ≤ q) (h1 : q ≤ 100) :
    0 ≤ App.round2 q ∧ App.round2 q ≤ 100 := by
  have hlo : (0 : ℤ) ≤ round (q * 100) := by
    have := round_mono_q (a := 0) (b := q * 100) (by nlinarith)
    simpa using this
  have hhi : round (q * 100) ≤ 10000 := by
    have := round_mono_q (a := q * 100) (b := 10000) (by nlinarith)
    simpa using this
  constructor
  · unfold App.round2
    apply div_nonneg _ (by norm_num)
    exact_mod_cast hlo
  · unfold App.round2
    rw [div_le_iff₀ (by norm_num)]
    calc (round (q * 100) : ℚ) ≤ (10000 : ℤ) := by exact_mod_cast hhi
    _ = 100 * 100 := by norm_num

/-- C1 (amended): in the `/evaluate_domain` fallback chain, a stage that
raises hands over to the next stage in order (primary domain model, then
local TF-IDF lexical similarity, then remote LLM judge), and when every
stage raises the route returns exactly the declared safe default, whose
score is 50; in particular a primary-stage exception leads to the lexical
stage being attempted.  Raising is the only failure mode the chain reacts
to: a primary-stage timeout is absorbed by the shared client into a
successful score-50 outcome, and a stage output failing the declared
[0, 100] validation is served as-is — see the counterexample below. -/
theorem domain_fallback_chain (s2 : Option ℚ) (loads : String → Option Json)
    (chat : Option String) :
    (∀ r, App.evaluate_domain_route (some r) s2 loads chat = (r, App.Tier.primary)) ∧
    App.evaluate_domain_route none s2 loads chat = App.domainChain2 s2 loads chat ∧
    (∀ sim, App.domainChain2 (some sim) loads chat = (App.tfidfStage sim, App.Tier.lexical)) ∧
    App.domainChain2 none loads chat = App.domainChain3 loads chat ∧
    (∀ r, App.remoteJudgeStage loads chat = some r →
      App.domainChain3 loads chat = (r, App.Tier.remoteJudge)) ∧
    (App.remoteJudgeStage loads chat = none →
      App.evaluate_domain_route none none loads chat =
        (App.routeSafeDefault, App.Tier.fallbackDefault)) ∧
    App.routeSafeDefault.similarity_score = 50 := by
  refine ⟨fun r => rfl, rfl, fun sim => rfl, rfl, ?_, ?_, rfl⟩
  · intro r h
    unfold App.domainChain3
    rw [h]
  · intro h
    show App.domainChain3 loads chat = _
    unfold App.domainChain3
    rw [h]

/-- Witness for `domain_fallback_chain`: with every stage failing, the route
returns the safe default with score 50; with only the primary failing, the
TF-IDF outcome is served. -/
theorem domain_fallback_chain_witness :
    App.evaluate_domain_route none none (fun _ => none) none =
      (App.routeSafeDefault, App.Tier.fallbackDefault) ∧
    App.routeSafeDefault.similarity_score = 50 ∧
    App.domainChain3 (fun _ => none) (some "no braces here") =
      (App.routeSafeDefault, App.Tier.fallbackDefault) ∧
    App.domainChain3
        (fun s => if s = "reply" then some (.obj [("similarity_score", .num 70)]) else none)
        (some "reply") =
      (⟨70, .str ""⟩, App.Tier.remoteJudge) :=
  ⟨(domain_fallback_chain none (fun _ => none) none).2.2.2.2.2.1 rfl,
   (domain_fallback_chain none (fun _ => none) none).2.2.2.2.2.2,
   by
     have h := (domain_fallback_chain none (fun _ => none)
       (some "no braces here")).2.2.2.2.2.1 rfl
     simpa [App.evaluate_domain_route, App.domainChain2] using h,
   (domain_fallback_chain none
     (fun s => if s = "reply" then some (.obj [("similarity_score", .num 70)]) else none)
     (some "reply")).2.2.2.2.1 ⟨70, .str ""⟩ rfl⟩

/-- C1 counterexample: two failure modes named by the claim do not hand
over to the next stage.  A primary-stage timeout (the request raising
inside the shared client, `chatData = none`) is absorbed into a successful
score-50 primary outcome, so the route serves it with tier `primary` and
the lexical stage is never attempted — even with a TF-IDF similarity
available.  And a remote-judge output failing the [0, 100] validation
(score 250) is served with tier `remoteJudge` instead of the declared
default. -/
theorem fallback_chain_claim_fails :
    DomainEvaluator.evaluate_domain_response (fun _ => none) none
        "timed out" "hello answer" "ideal" =
      some ⟨50, .str DomainEvaluator.parsedFeedbackDefault⟩ ∧
    App.evaluate_domain_route
        (DomainEvaluator.evaluate_domain_response (fun _ => none) none
          "timed out" "hello answer" "ideal")
        (some (1/2)) (fun _ => none) none =
      (⟨50, .str DomainEvaluator.parsedFeedbackDefault⟩, App.Tier.primary) ∧
    App.evaluate_domain_route none none
        (fun s => if s = "judge" then
          some (.obj [("similarity_score", .num 250)]) else none)
        (some "judge") =
      (⟨250, .str ""⟩, App.Tier.remoteJudge) ∧
    ¬ ((250 : ℚ) ≤ 100) ∧
    (250 : ℚ) ≠ App.routeSafeDefault.similarity_score :=
  ⟨rfl, rfl, rfl, by norm_num, by norm_num [App.routeSafeDefault]⟩

/-- One more `/question` call acts on the state left by the previous calls. -/
theorem runNextQ_succ_last (qs : List App.Question) (n : Nat) (d : App.SessionDoc) :
    App.runNextQ qs (n + 1) d =
      (App.get_next_question qs (App.runNextQ qs n d)).2 := by
  induction n generalizing d with
  | zero => rfl
  | succ m ih =>
    show App.runNextQ qs (m + 1) (App.get_next_question qs d).2 = _
    rw [ih]
    rfl


/-- An empty question set is rejected with no mutation. -/
theorem get_next_question_empty (qs : List App.Question) (d : App.SessionDoc)
    (h0 : qs.length = 0) :
    App.get_next_question qs d = (.invalidDomain, d) := by
  simp only [App.get_next_question]
  rw [if_pos h0]

/-- An exhausted session answers `done` with no mutation. -/
theorem get_next_question_done (qs : List App.Question) (d : App.SessionDoc)
    (h0 : qs.length ≠ 0) (h : qs.length ≤ d.current_question) :
    App.get_next_question qs d = (.done qs.length, d) := by
  simp only [App.get_next_question]
  rw [if_neg h0, if_pos h]

/-- With questions remaining, the stored question is served and the index
advances by exactly one. -/
theorem get_next_question_serve (qs : List App.Question) (m : Nat)
    (rs : List App.PerQuestionResult) (h : m < qs.length) :
    App.get_next_question qs ⟨m, rs⟩ =
      (.question (m + 1) qs.length qs[m].id qs[m].text, ⟨m + 1, rs⟩) := by
  simp only [App.get_next_question]
  rw [if_neg (by omega), if_neg (show ¬ m ≥ qs.length by omega),
    List.getElem?_eq_getElem h]

/-- After `N` sequential `/question` calls on a fresh session document the
stored index is `min N total` and the results are untouched. -/
theorem runNextQ_state (qs : List App.Question) (rs : List App.PerQuestionResult) :
    ∀ N, App.runNextQ qs N ⟨0, rs⟩ = ⟨min N qs.length, rs⟩ := by
  intro N
  induction N with
  | zero => simp [App.runNextQ]
  | succ n ih =>
    rw [runNextQ_succ_last, ih]
    by_cases h0 : qs.length = 0
    · rw [get_next_question_empty qs _ h0]
      simp [h0]
    · by_cases hn : qs.length ≤ n
      · rw [get_next_question_done qs _ h0 (le_of_eq (min_eq_right hn).symm)]
        have : min n qs.length = qs.length := min_eq_right hn
        have h' : min (n + 1) qs.length = qs.length := min_eq_right (by omega)
        simp [this, h']
      · have hlt : n < qs.length := by omega
        have hmin : min n qs.length = n := min_eq_left (by omega)
        rw [hmin, get_next_question_serve qs n rs hlt]
        have h' : min (n + 1) qs.length = n + 1 := min_eq_left (by omega)
        simp [h']

/-- The `k`-th call of a fresh run serves question `k` with display index
`k + 1` as long as questions remain. -/
theorem nthOutcome_question (qs : List App.Question)
    (rs : List App.PerQuestionResult) (k : Nat) (hk : k < qs.length) :
    App.nthOutcome qs rs k =
      .question (k + 1) qs.length qs[k].id qs[k].text := by
  unfold App.nthOutcome
  rw [runNextQ_state, min_eq_left (by omega), get_next_question_serve qs k rs hk]

/-- A `question` outcome of the `k`-th call always carries display index
`k + 1`. -/
theorem nthOutcome_question_inv (qs : List App.Question)
    (rs : List App.PerQuestionResult) (k a t : Nat) (idv txv : String)
    (h : App.nthOutcome qs rs k = .question a t idv txv) :
    a = k + 1 ∧ k < qs.length := by
  by_cases hk : k < qs.length
  · rw [nthOutcome_question qs rs k hk] at h
    injection h with h1 _
    exact ⟨h1.symm, hk⟩
  · exfalso
    unfold App.nthOutcome at h
    rw [runNextQ_state] at h
    by_cases h0 : qs.length = 0
    · rw [get_next_question_empty qs _ h0] at h
      exact App.NextQOutcome.noConfusion h
    · rw [get_next_question_done qs _ h0
        (le_of_eq (min_eq_right (by omega)).symm)] at h
      exact App.NextQOutcome.noConfusion h

/-- C2: for every session and every number `N` of sequential `/question`
calls, the stored `current_question` equals `min N total`; once the index
has reached the total, each further call returns `done` and leaves the
stored document unchanged; and no display index is returned by two distinct
calls of one session. -/
theorem next_question_progress (qs : List App.Question)
    (rs : List App.PerQuestionResult) :
    (∀ N, App.runNextQ qs N ⟨0, rs⟩ = ⟨min N qs.length, rs⟩) ∧
    (∀ d : App.SessionDoc, qs.length ≠ 0 → qs.length ≤ d.current_question →
      App.get_next_question qs d = (.done qs.length, d)) ∧
    (∀ i j ai aj ti tj idi idj txi txj,
      App.nthOutcome qs rs i = .question ai ti idi txi →
      App.nthOutcome qs rs j = .question aj tj idj txj →
      i ≠ j → ai ≠ aj) := by
  refine ⟨runNextQ_state qs rs, get_next_question_done qs, ?_⟩
  intro i j ai aj ti tj idi idj txi txj hi hj hij
  obtain ⟨hai, -⟩ := nthOutcome_question_inv qs rs i ai ti idi txi hi
  obtain ⟨haj, -⟩ := nthOutcome_question_inv qs rs j aj tj idj txj hj
  omega

/-- Witness for `next_question_progress` on a two-question domain: after
three calls the index is 2; the exhausted document is returned unchanged
with `done`; and the display indices of call 0 and call 1 differ. -/
theorem next_question_progress_witness :
    App.runNextQ [⟨"q1", "t1", "a1"⟩, ⟨"q2", "t2", "a2"⟩] 3 ⟨0, []⟩ = ⟨2, []⟩ ∧
    App.get_next_question [⟨"q1", "t1", "a1"⟩, ⟨"q2", "t2", "a2"⟩] ⟨2, []⟩ =
      (.done 2, ⟨2, []⟩) ∧
    (1 : Nat) ≠ 2 :=
  ⟨(next_question_progress [⟨"q1", "t1", "a1"⟩, ⟨"q2", "t2", "a2"⟩] []).1 3,
   (next_question_progress [⟨"q1", "t1", "a1"⟩, ⟨"q2", "t2", "a2"⟩] []).2.1
     ⟨2, []⟩ (by decide) (by decide),
   (next_question_progress [⟨"q1", "t1", "a1"⟩, ⟨"q2", "t2", "a2"⟩] []).2.2
     0 1 1 2 2 2 "q1" "q2" "t1" "t2" rfl rfl (by decide)⟩

/-- C5 (amended): the per-question persistence step appends the result to
`results` — a second identical call appends a second copy — and it never
writes `current_question` (a missing document is created with index 0 and
empty prior results). -/
theorem append_result_spec (per_q : App.PerQuestionResult)
    (store : Option App.SessionDoc) :
    (App.append_result per_q store).results =
      (match store with | some d => d.results | none => []) ++ [per_q] ∧
    (App.append_result per_q store).current_question =
      (match store with | some d => d.current_question | none => 0) := by
  cases store <;> exact ⟨rfl, rfl⟩

/-- C5 counterexample: `append_result` is not idempotent — applying it twice
with the same result stores two copies, so the stored sequence differs from
a single application. -/
theorem append_result_not_idempotent :
    App.append_result ⟨.null, .null, .null, .null, .null, .null, .null, .null, .null, .null⟩
        (some (App.append_result
          ⟨.null, .null, .null, .null, .null, .null, .null, .null, .null, .null⟩
          (some ⟨0, []⟩))) ≠
      App.append_result
        ⟨.null, .null, .null, .null, .null, .null, .null, .null, .null, .null⟩
        (some ⟨0, []⟩) := by
  intro h
  have hlen := congrArg (fun d => d.results.length) h
  simp [App.append_result] at hlen

/-- C6: for both presence patterns of the posture modality the fused
weights sum to exactly 1; when posture is absent its weight is
redistributed over nlp, emotion and tone in proportion to their share of
the remaining total (each scaled by 0.10 / 0.90) before renormalization. -/
theorem fusion_weights_sum_one :
    (∀ b : Bool,
      (FeedbackGenerator.merge_weights b).1 +
      (FeedbackGenerator.merge_weights b).2.1 +
      (FeedbackGenerator.merge_weights b).2.2.1 +
      (FeedbackGenerator.merge_weights b).2.2.2 = 1) ∧
    FeedbackGenerator.merge_weights true = (65/100, 15/100, 10/100, 10/100) ∧
    FeedbackGenerator.merge_weights false = (13/18, 1/6, 1/9, 0) ∧
    (13/18 : ℚ) = (65/100) / (90/100) ∧
    (1/6 : ℚ) = (15/100) / (90/100) ∧
    (1/9 : ℚ) = (10/100) / (90/100) := by
  refine ⟨fun b => ?_, by norm_num [FeedbackGenerator.merge_weights],
    by norm_num [FeedbackGenerator.merge_weights], by norm_num, by norm_num, by norm_num⟩
  cases b <;> norm_num [FeedbackGenerator.merge_weights]

/-- All four fused weights are nonnegative in both presence patterns. -/
theorem merge_weights_nonneg (b : Bool) :
    0 ≤ (FeedbackGenerator.merge_weights b).1 ∧
    0 ≤ (FeedbackGenerator.merge_weights b).2.1 ∧
    0 ≤ (FeedbackGenerator.merge_weights b).2.2.1 ∧
    0 ≤ (FeedbackGenerator.merge_weights b).2.2.2 := by
  cases b <;> norm_num [FeedbackGenerator.merge_weights]

/-- C7: the fused final score is monotonically non-decreasing in each single
sub-score when the other sub-scores and the presence pattern are held
fixed. -/
theorem fusion_monotone :
    (∀ (e t : ℚ) (p : Option ℚ) (a b : ℚ), a ≤ b →
      FeedbackGenerator.merge_scores_core a e t p ≤
        FeedbackGenerator.merge_scores_core b e t p) ∧
    (∀ (n t : ℚ) (p : Option ℚ) (a b : ℚ), a ≤ b →
      FeedbackGenerator.merge_scores_core n a t p ≤
        FeedbackGenerator.merge_scores_core n b t p) ∧
    (∀ (n e : ℚ) (p : Option ℚ) (a b : ℚ), a ≤ b →
      FeedbackGenerator.merge_scores_core n e a p ≤
        FeedbackGenerator.merge_scores_core n e b p) ∧
    (∀ (n e t a b : ℚ), a ≤ b →
      FeedbackGenerator.merge_scores_core n e t (some a) ≤
        FeedbackGenerator.merge_scores_core n e t (some b)) := by
  have key : ∀ (w : ℚ × ℚ × ℚ × ℚ), 0 ≤ w.1 → 0 ≤ w.2.1 → 0 ≤ w.2.2.1 → 0 ≤ w.2.2.2 →
      ∀ (n e t pq n' e' t' pq' : ℚ), n ≤ n' → e ≤ e' → t ≤ t' → pq ≤ pq' →
      w.1 * n + w.2.1 * e + w.2.2.1 * t + w.2.2.2 * pq ≤
        w.1 * n' + w.2.1 * e' + w.2.2.1 * t' + w.2.2.2 * pq' := by
    intro w h1 h2 h3 h4 n e t pq n' e' t' pq' hn he ht hp
    have := mul_le_mul_of_nonneg_left hn h1
    have := mul_le_mul_of_nonneg_left he h2
    have := mul_le_mul_of_nonneg_left ht h3
    have := mul_le_mul_of_nonneg_left hp h4
    linarith
  obtain ⟨w1t, w2t, w3t, w4t⟩ := merge_weights_nonneg true
  obtain ⟨w1f, w2f, w3f, w4f⟩ := merge_weights_nonneg false
  refine ⟨?_, ?_, ?_, ?_⟩
  · intro e t p a b h
    unfold FeedbackGenerator.merge_scores_core
    cases p with
    | none => exact clamp_mono (key _ w1f w2f w3f w4f _ _ _ _ _ _ _ _ h le_rfl le_rfl le_rfl)
    | some v => exact clamp_mono (key _ w1t w2t w3t w4t _ _ _ _ _ _ _ _ h le_rfl le_rfl le_rfl)
  · intro n t p a b h
    unfold FeedbackGenerator.merge_scores_core
    cases p with
    | none => exact clamp_mono (key _ w1f w2f w3f w4f _ _ _ _ _ _ _ _ le_rfl h le_rfl le_rfl)
    | some v => exact clamp_mono (key _ w1t w2t w3t w4t _ _ _ _ _ _ _ _ le_rfl h le_rfl le_rfl)
  · intro n e p a b h
    unfold FeedbackGenerator.merge_scores_core
    cases p with
    | none => exact clamp_mono (key _ w1f w2f w3f w4f _ _ _ _ _ _ _ _ le_rfl le_rfl h le_rfl)
    | some v => exact clamp_mono (key _ w1t w2t w3t w4t _ _ _ _ _ _ _ _ le_rfl le_rfl h le_rfl)
  · intro n e t a b h
    unfold FeedbackGenerator.merge_scores_core
    exact clamp_mono (key _ w1t w2t w3t w4t _ _ _ _ _ _ _ _ le_rfl le_rfl le_rfl h)

/-- Witness for `fusion_monotone`: each modality exercised at concrete
sub-scores. -/
theorem fusion_monotone_witness :
    FeedbackGenerator.merge_scores_core (1/2) (7/10) (7/10) none ≤
      FeedbackGenerator.merge_scores_core (3/4) (7/10) (7/10) none ∧
    FeedbackGenerator.merge_scores_core (1/2) (6/10) (7/10) (some (8/10)) ≤
      FeedbackGenerator.merge_scores_core (1/2) (9/10) (7/10) (some (8/10)) ∧
    FeedbackGenerator.merge_scores_core (1/2) (7/10) (6/10) none ≤
      FeedbackGenerator.merge_scores_core (1/2) (7/10) (8/10) none ∧
    FeedbackGenerator.merge_scores_core (1/2) (7/10) (7/10) (some (6/10)) ≤
      FeedbackGenerator.merge_scores_core (1/2) (7/10) (7/10) (some (9/10)) :=
  ⟨fusion_monotone.1 (7/10) (7/10) none (1/2) (3/4) (by norm_num),
   fusion_monotone.2.1 (1/2) (7/10) (some (8/10)) (6/10) (9/10) (by norm_num),
   fusion_monotone.2.2.1 (1/2) (7/10) none (6/10) (8/10) (by norm_num),
   fusion_monotone.2.2.2 (1/2) (7/10) (7/10) (6/10) (9/10) (by norm_num)⟩

/-- C8 counterexample: on sub-scores nlp = 0.9, emotion = 0.8, tone = 0.8
with posture absent, the renormalized weights are (13/18, 1/6, 1/9) ≈
(0.722, 0.167, 0.111), not ≈ (0.764, 0.176, 0.059), and the final score is
157/180 ≈ 0.872, not ≈ 0.85 (both checked at a generous 0.02 tolerance). -/
theorem fusion_example_mismatch :
    FeedbackGenerator.merge_weights false = (13/18, 1/6, 1/9, 0) ∧
    ¬ |(13/18 : ℚ) - 764/1000| < 1/50 ∧
    ¬ |(1/9 : ℚ) - 59/1000| < 1/50 ∧
    FeedbackGenerator.merge_scores_core (9/10) (8/10) (8/10) none = 157/180 ∧
    ¬ |(157/180 : ℚ) - 85/100| < 1/50 := by
  refine ⟨by norm_num [FeedbackGenerator.merge_weights], ?_, ?_, ?_, ?_⟩
  · rw [abs_sub_comm, abs_of_pos (by norm_num)]
    norm_num
  · rw [abs_of_pos (by norm_num)]
    norm_num
  · norm_num [FeedbackGenerator.merge_scores_core, FeedbackGenerator.merge_weights]
  · rw [abs_of_pos (by norm_num)]
    norm_num

/-- C8 (amended): on sub-scores nlp = 0.9, emotion = 0.8, tone = 0.8 with
posture absent, the base weights renormalize to exactly
(nlp 13/18 ≈ 0.722, emotion 1/6 ≈ 0.167, tone 1/9 ≈ 0.111), the final
score is 157/180 ≈ 0.872, and its qualitative label is "Excellent". -/
theorem fusion_example_actual :
    FeedbackGenerator.merge_weights false = (13/18, 1/6, 1/9, 0) ∧
    FeedbackGenerator.merge_scores_core (9/10) (8/10) (8/10) none = 157/180 ∧
    FeedbackGenerator.rating_from_score (157/180) = "Excellent" := by
  refine ⟨by norm_num [FeedbackGenerator.merge_weights],
    by norm_num [FeedbackGenerator.merge_scores_core, FeedbackGenerator.merge_weights],
    ?_⟩
  unfold FeedbackGenerator.rating_from_score
  rw [if_pos (by norm_num)]

/-- C10: every successful posture analysis yields a summary among
"good"/"fair"/"poor"; the fusion-side mapping recognizes only the
substrings "excellent"/"good"/"poor"/"bad", so a successful analysis whose
summary is "fair" gets the unrecognized-label default sub-score 0.7 — the
same value as any other unrecognized label — while still counting as
present for the weights. -/
theorem posture_fair_gets_default :
    (∀ p : ℚ, PostureTracker.posture_summary p = "good" ∨
      PostureTracker.posture_summary p = "fair" ∨
      PostureTracker.posture_summary p = "poor") ∧
    FeedbackGenerator.strHas "fair" "excellent" = false ∧
    FeedbackGenerator.strHas "fair" "good" = false ∧
    FeedbackGenerator.strHas "fair" "poor" = false ∧
    FeedbackGenerator.strHas "fair" "bad" = false ∧
    FeedbackGenerator.posture_score
      (.obj [("success", .bool true), ("frames_sampled", .num 8),
             ("person_presence_ratio", .num (1/2)), ("summary", .str "fair")]) =
      some (7/10) ∧
    FeedbackGenerator.posture_score
      (.obj [("success", .bool true), ("summary", .str "some other label")]) =
      some (7/10) ∧
    (FeedbackGenerator.posture_score
      (.obj [("success", .bool true), ("summary", .str "fair")])).isSome = true := by
  refine ⟨?_, rfl, rfl, rfl, rfl, rfl, rfl, rfl⟩
  intro p
  unfold PostureTracker.posture_summary
  by_cases h1 : p > 7/10
  · rw [if_pos h1]
    left; rfl
  · rw [if_neg h1]
    by_cases h2 : p > 35/100
    · rw [if_pos h2]
      right; left; rfl
    · rw [if_neg h2]
      right; right; rfl

/-- C3 counterexample: the remote-LLM-judge branch of `/evaluate_domain`
returns the parsed `similarity_score` without any clamping, so a judge
reply of 150 is served as an outcome with score 150 ∉ [0, 100]. -/
theorem remote_judge_score_unclamped :
    App.evaluate_domain_route none none
        (fun s => if s = "judge-reply" then
          some (.obj [("similarity_score", .num 150)]) else none)
        (some "judge-reply") =
      (⟨150, .str ""⟩, App.Tier.remoteJudge) ∧
    ¬ ((150 : ℚ) ≤ 100) := by
  exact ⟨rfl, by norm_num⟩

/-- C3 (amended): outcomes of the primary stage are clamped to [0, 100],
the TF-IDF stage stays in [0, 100] whenever its cosine similarity lies in
[0, 1], and the safe default is 50; only the remote-judge branch can leave
the range (see the counterexample). -/
theorem domain_scores_in_range (loads : String → Option Json)
    (chatData : Option Json) (errMsg u c : String)
    (r : DomainEvaluator.DomainEval) :
    (DomainEvaluator.evaluate_domain_response loads chatData errMsg u c = some r →
      0 ≤ r.similarity_score ∧ r.similarity_score ≤ 100) ∧
    (∀ sim : ℚ, 0 ≤ sim → sim ≤ 1 →
      0 ≤ (App.tfidfStage sim).similarity_score ∧
        (App.tfidfStage sim).similarity_score ≤ 100) ∧
    (0 ≤ App.routeSafeDefault.similarity_score ∧
      App.routeSafeDefault.similarity_score ≤ 100) := by
  refine ⟨?_, ?_, by norm_num [App.routeSafeDefault]⟩
  · intro h
    unfold DomainEvaluator.evaluate_domain_response at h
    by_cases hu : pyStrip u = ""
    · rw [if_pos hu] at h
      injection h with h'
      rw [← h']
      norm_num
    · rw [if_neg hu] at h
      simp only at h
      cases hE : LlmClient.rapidapi_try_parse_json loads
          (LlmClient.rapidapi_chat_json chatData errMsg) with
      | null => rw [hE] at h; exact Option.noConfusion h
      | bool b => rw [hE] at h; exact Option.noConfusion h
      | num q => rw [hE] at h; exact Option.noConfusion h
      | str s => rw [hE] at h; exact Option.noConfusion h
      | arr xs => rw [hE] at h; exact Option.noConfusion h
      | obj kvs =>
        rw [hE] at h
        injection h with h'
        rw [← h']
        exact ⟨le_max_left 0 _, max_le (by norm_num) (min_le_left 100 _)⟩
  · intro sim h0 h1
    exact round2_bounds (q := sim * 100) (by nlinarith) (by nlinarith)

/-- Witness for `domain_scores_in_range`: the primary stage on an
unparseable reply yields the clamped default 50 ∈ [0, 100]; the TF-IDF
stage at similarity 1/2 yields a score in [0, 100]. -/
theorem domain_scores_in_range_witness :
    (0 : ℚ) ≤ 50 ∧ (50 : ℚ) ≤ 100 ∧
    0 ≤ (App.tfidfStage (1/2)).similarity_score ∧
      (App.tfidfStage (1/2)).similarity_score ≤ 100 := by
  have h1 := (domain_scores_in_range (fun _ => none) none "boom" "hello answer" "ideal"
    ⟨50, .str DomainEvaluator.parsedFeedbackDefault⟩).1 rfl
  have h2 := (domain_scores_in_range (fun _ => none) none "boom" "hello answer" "ideal"
    ⟨50, .str DomainEvaluator.parsedFeedbackDefault⟩).2.1 (1/2) (by norm_num) (by norm_num)
  exact ⟨h1.1, h1.2, h2.1, h2.2⟩

/-- C4 (amended): both JSON normalizers first attempt a direct parse and,
on failure, retry on the substring from the first `{` through the last `}`;
when that also fails, the route-local normalizer raises `ValueError` (the
calling stage fails), but the shared-client normalizer instead returns the
empty dict, so its calling stage still succeeds with default values. -/
theorem json_normalizer_behavior (loads : String → Option Json) (t : String)
    (j : Json) :
    (loads t = some j → App.rapidapi_try_parse_json loads t = some j) ∧
    (loads t = some j →
      LlmClient.rapidapi_try_parse_json loads (.str t) = j) ∧
    (∀ st en, loads t = none → charFindIdx? t.toList lbrace = some st →
      charRfindIdx? t.toList rbrace = some en → st < en →
      App.rapidapi_try_parse_json loads t = loads (pySlice t.toList st (en + 1))) ∧
    ((∀ s, loads s = none) → App.rapidapi_try_parse_json loads t = none) ∧
    ((∀ s, loads s = none) →
      LlmClient.rapidapi_try_parse_json loads (.str t) = .obj []) := by
  refine ⟨?_, ?_, ?_, ?_, ?_⟩
  · intro h
    unfold App.rapidapi_try_parse_json
    rw [h]
  · intro h
    simp only [LlmClient.rapidapi_try_parse_json]
    rw [h]
  · intro st en h hF hR hlt
    simp only [App.rapidapi_try_parse_json]
    rw [h, hF, hR]
    show (if st < en then loads (pySlice t.toList st (en + 1)) else none) =
      loads (pySlice t.toList st (en + 1))
    rw [if_pos hlt]
  · intro hall
    simp only [App.rapidapi_try_parse_json]
    rw [hall t]
    cases hF : charFindIdx? t.toList lbrace with
    | none => rfl
    | some st =>
      cases hR : charRfindIdx? t.toList rbrace with
      | none => rfl
      | some en =>
        show (if st < en then loads (pySlice t.toList st (en + 1)) else none) = none
        by_cases hlt : st < en
        · rw [if_pos hlt, hall]
        · rw [if_neg hlt]
  · intro hall
    simp only [LlmClient.rapidapi_try_parse_json]
    rw [hall t]
    cases hF : charFindIdx? t.toList lbrace with
    | none => rfl
    | some st =>
      cases hR : charRfindIdx? t.toList rbrace with
      | none => rfl
      | some en =>
        show (loads (pySlice t.toList st (en + 1))).getD (Json.obj []) = Json.obj []
        rw [hall]
        rfl

/-- C4 counterexample: when both parse attempts fail, the shared-client
normalizer (used by the primary domain-evaluation stage) does not signal
failure — it returns the empty dict, and the calling stage still produces a
successful outcome with the default score 50; only the route-local
normalizer raises. -/
theorem json_normalizer_silent_default :
    LlmClient.rapidapi_try_parse_json (fun _ => none) (.str "not json at all") =
      .obj [] ∧
    App.rapidapi_try_parse_json (fun _ => none) "not json at all" = none ∧
    DomainEvaluator.evaluate_domain_response (fun _ => none) none "boom"
        "hello answer" "ideal" =
      some ⟨50, .str DomainEvaluator.parsedFeedbackDefault⟩ :=
  ⟨rfl, rfl, rfl⟩

/-- Witness for `json_normalizer_behavior`: concrete direct parses, a
concrete brace-substring retry, and concrete double failures. -/
theorem json_normalizer_behavior_witness :
    App.rapidapi_try_parse_json
      (fun s => if s = "ok" then some (.num 1) else none) "ok" = some (.num 1) ∧
    LlmClient.rapidapi_try_parse_json
      (fun s => if s = "ok" then some (.num 1) else none) (.str "ok") = .num 1 ∧
    App.rapidapi_try_parse_json
      (fun s => if s = String.mk [lbrace, 'y', rbrace] then some (.num 7) else none)
      (String.mk ['x', lbrace, 'y', rbrace]) =
      (fun s => if s = String.mk [lbrace, 'y', rbrace] then some (.num 7) else none)
        (pySlice (String.mk ['x', lbrace, 'y', rbrace]).toList 1 (3 + 1)) ∧
    App.rapidapi_try_parse_json (fun _ => none) "word salad" = none ∧
    LlmClient.rapidapi_try_parse_json (fun _ => none) (.str "word salad") = .obj [] :=
  ⟨(json_normalizer_behavior (fun s => if s = "ok" then some (.num 1) else none)
      "ok" (.num 1)).1 rfl,
   (json_normalizer_behavior (fun s => if s = "ok" then some (.num 1) else none)
      "ok" (.num 1)).2.1 rfl,
   (json_normalizer_behavior
      (fun s => if s = String.mk [lbrace, 'y', rbrace] then some (.num 7) else none)
      (String.mk ['x', lbrace, 'y', rbrace]) .null).2.2.1 1 3 rfl rfl rfl
      (by decide),
   (json_normalizer_behavior (fun _ => none) "word salad" .null).2.2.2.1
      (fun _ => rfl),
   (json_normalizer_behavior (fun _ => none) "word salad" .null).2.2.2.2
      (fun _ => rfl)⟩

/-- C9 (amended): the shared LLM client never raises — `rapidapi_chat_json`
returns the literal "ERROR: <message>" on any transport or response-shape
failure, and `rapidapi_try_parse_json` always returns a JSON value, the
empty dict on unparseable input; so the except branch of
`evaluate_domain_response` is unreachable through these calls.  But the
parse result need not be a dict, and on a non-dict `parsed.get` raises
inside `generate_feedback`'s try block, so that handler branch is
reachable. -/
theorem llm_client_totality (errMsg : String) (loads : String → Option Json)
    (t : String) (d : Json) :
    LlmClient.rapidapi_chat_json none errMsg = .str ("ERROR: " ++ errMsg) ∧
    (LlmClient.groqExtract d = none →
      LlmClient.rapidapi_chat_json (some d) errMsg = .str ("ERROR: " ++ errMsg)) ∧
    ((∀ s, loads s = none) →
      LlmClient.rapidapi_try_parse_json loads (.str t) = .obj []) ∧
    (∀ j : Json, Json.isObjB j = false →
      FeedbackGenerator.generate_feedback_try j = none) := by
  refine ⟨rfl, ?_, ?_, ?_⟩
  · intro h
    simp only [LlmClient.rapidapi_chat_json, Option.bind]
    rw [h]
  · intro hall
    simp only [LlmClient.rapidapi_try_parse_json]
    rw [hall t]
    cases hF : charFindIdx? t.toList lbrace with
    | none => rfl
    | some st =>
      cases hR : charRfindIdx? t.toList rbrace with
      | none => rfl
      | some en =>
        show (loads (pySlice t.toList st (en + 1))).getD (Json.obj []) = Json.obj []
        rw [hall]
        rfl
  · intro j hj
    cases j <;> first | rfl | simp [Json.isObjB] at hj

/-- C9 counterexample: a reply whose JSON is the scalar `3` is returned by
`rapidapi_try_parse_json` as a non-dict, and `generate_feedback`'s
exception-handler branch is then reached through these two calls: the
produced feedback is the local fallback text, not the model's. -/
theorem parse_not_dict_handler_reachable :
    LlmClient.rapidapi_try_parse_json
      (fun s => if s = "3" then some (.num 3) else none) (.str "3") = .num 3 ∧
    Json.isObjB (.num 3) = false ∧
    LlmClient.rapidapi_try_parse_json
      (fun s => if s = "3" then some (.num 3) else none)
      (LlmClient.rapidapi_chat_json
        (some (.obj [("choices",
          .arr [.obj [("message", .obj [("content", .str "3")])]])])) "e") =
      .num 3 ∧
    FeedbackGenerator.generate_feedback_try
      (LlmClient.rapidapi_try_parse_json
        (fun s => if s = "3" then some (.num 3) else none)
        (LlmClient.rapidapi_chat_json
          (some (.obj [("choices",
            .arr [.obj [("message", .obj [("content", .str "3")])]])])) "e")) =
      none :=
  ⟨rfl, rfl, rfl, rfl⟩

/-- Witness for `llm_client_totality`: concrete failure shapes. -/
theorem llm_client_totality_witness :
    LlmClient.rapidapi_chat_json none "boom" = .str "ERROR: boom" ∧
    LlmClient.rapidapi_chat_json (some (.obj [])) "boom" = .str "ERROR: boom" ∧
    LlmClient.rapidapi_try_parse_json (fun _ => none) (.str "plain text") =
      .obj [] ∧
    FeedbackGenerator.generate_feedback_try (.arr []) = none :=
  ⟨(llm_client_totality "boom" (fun _ => none) "plain text" (.obj [])).1,
   (llm_client_totality "boom" (fun _ => none) "plain text" (.obj [])).2.1 rfl,
   (llm_client_totality "boom" (fun _ => none) "plain text" (.obj [])).2.2.1
     (fun _ => rfl),
   (llm_client_totality "boom" (fun _ => none) "plain text" (.obj [])).2.2.2
     (.arr []) rfl⟩
